import Mathlib

/-!
Shallow embedding of the vessel financial-analysis engine
(`src/backend/models/VesselFinancialModel.js`) over exact rational arithmetic.

Every definition below mirrors one method of the `VesselFinancialModel` class:
JavaScript numbers are modelled by `ℚ`, absent/`null` inputs by `Option`,
the `throw` in `validateParameters` by `Except.error`.  Loops are modelled by
structural recursion on the (explicit, source-derived) iteration count.
String rendering inside `generateSummary` (`toLocaleString`, `toFixed`) is
display-only and is modelled structurally by keeping the underlying numbers.
-/

namespace VesselFinancialModel

/-- Raw parameter map handed to the constructor.  `none` models a field that
is `undefined` or `null` in the JavaScript object. -/
structure RawParams where
  vesselType : Option String
  age : Option ℚ
  price : Option ℚ
  dwt : Option ℚ
  currency : Option String
  downPaymentPercent : Option ℚ
  loanTermYears : Option ℤ
  interestRatePercent : Option ℚ
  dailyCharterRate : Option ℚ
  opexPerDay : Option ℚ
  utilizationPercent : Option ℚ
  scrapValue : Option ℚ

/-- Normalized parameters, the result of `validateParameters`: the three
percentage fields already divided by 100, `loanTermYears` an integer
(`parseInt`), `scrapValue` defaulted. -/
structure Params where
  vesselType : String
  age : ℚ
  price : ℚ
  dwt : ℚ
  currency : String
  downPaymentPercent : ℚ
  loanTermYears : ℤ
  interestRatePercent : ℚ
  dailyCharterRate : ℚ
  opexPerDay : ℚ
  utilizationPercent : ℚ
  scrapValue : ℚ

/-- `validateParameters`: checks the seven required fields in the source's
fixed order, throwing `Missing required parameter: <field>` at the first
absent one, then builds the normalized object.  The `scrapValue` branch
mirrors `parseFloat(params.scrapValue) || (params.price * 0.15)`: a supplied
value of `0` is falsy in JavaScript, so it falls through to the default. -/
def validateParameters (params : RawParams) : Except String Params :=
  match params.price with
  | none => Except.error ("Missing required parameter: price")
  | some price =>
  match params.downPaymentPercent with
  | none => Except.error ("Missing required parameter: downPaymentPercent")
  | some downPaymentPercent =>
  match params.loanTermYears with
  | none => Except.error ("Missing required parameter: loanTermYears")
  | some loanTermYears =>
  match params.interestRatePercent with
  | none => Except.error ("Missing required parameter: interestRatePercent")
  | some interestRatePercent =>
  match params.dailyCharterRate with
  | none => Except.error ("Missing required parameter: dailyCharterRate")
  | some dailyCharterRate =>
  match params.opexPerDay with
  | none => Except.error ("Missing required parameter: opexPerDay")
  | some opexPerDay =>
  match params.utilizationPercent with
  | none => Except.error ("Missing required parameter: utilizationPercent")
  | some utilizationPercent =>
  Except.ok
    { vesselType := params.vesselType.getD ("Unknown")
      age := params.age.getD 0
      price := price
      dwt := params.dwt.getD 0
      currency := params.currency.getD ("USD")
      downPaymentPercent := downPaymentPercent / 100
      loanTermYears := loanTermYears
      interestRatePercent := interestRatePercent / 100
      dailyCharterRate := dailyCharterRate
      opexPerDay := opexPerDay
      utilizationPercent := utilizationPercent / 100
      scrapValue :=
        match params.scrapValue with
        | some v => if v = 0 then price * (15 / 100) else v
        | none => price * (15 / 100) }

/-- The constructor's fixed 10% discount rate. -/
def discountRate : ℚ := 1 / 10

/-- `this.analysisHorizon = this.parameters.loanTermYears || 10`: the `||`
falls back to 10 exactly when `loanTermYears` is falsy, i.e. `0`. -/
def analysisHorizon (p : Params) : ℤ :=
  if p.loanTermYears = 0 then 10 else p.loanTermYears

/-- `calculateAnnualLoanPayment`: level-payment annuity, with the explicit
zero-rate branch returning `loanAmount / termYears`. -/
def calculateAnnualLoanPayment (p : Params) (loanAmount : ℚ) (termYears : ℤ) : ℚ :=
  let monthlyRate := p.interestRatePercent / 12
  let numPayments : ℤ := termYears * 12
  if monthlyRate = 0 then loanAmount / (termYears : ℚ)
  else
    let monthlyPayment := loanAmount * (monthlyRate * (1 + monthlyRate) ^ numPayments) /
      ((1 + monthlyRate) ^ numPayments - 1)
    monthlyPayment * 12

/-- One element of the cash-flow series.  The source's year-0 object omits
the `ebitda` and `terminalValue` keys; here they are carried as `0`. -/
structure CashFlowYear where
  year : ℕ
  revenue : ℚ
  opex : ℚ
  ebitda : ℚ
  debtPayment : ℚ
  terminalValue : ℚ
  netCashFlow : ℚ
  cumulativeCashFlow : ℚ

/-- Default element used with `List.getD` when indexing cash-flow series. -/
def cfDefault : CashFlowYear :=
  { year := 0, revenue := 0, opex := 0, ebitda := 0, debtPayment := 0,
    terminalValue := 0, netCashFlow := 0, cumulativeCashFlow := 0 }

/-- The year-0 entry pushed by `calculateCashFlows`: only the initial equity
outflow. -/
def yearZero (initialInvestment : ℚ) : CashFlowYear :=
  { year := 0, revenue := 0, opex := 0, ebitda := 0, debtPayment := 0,
    terminalValue := 0, netCashFlow := -initialInvestment,
    cumulativeCashFlow := -initialInvestment }

/-- The operating-year loop of `calculateCashFlows`
(`for (let year = 1; year <= this.analysisHorizon; year++)`), recursing on
the number of remaining iterations. -/
def opRange (p : Params) (annualLoanPayment : ℚ) (horizon : ℕ) :
    ℕ → ℕ → ℚ → List CashFlowYear
  | 0, _, _ => []
  | count + 1, year, cumulativeCashFlow =>
    let annualRevenue := p.dailyCharterRate * 365 * p.utilizationPercent
    let annualOpex := p.opexPerDay * 365
    let ebitda := annualRevenue - annualOpex
    let debtPayment := if (year : ℤ) ≤ p.loanTermYears then annualLoanPayment else 0
    let terminalValue := if year = horizon then p.scrapValue else 0
    let netCashFlow := ebitda - debtPayment + terminalValue
    let cum := cumulativeCashFlow + netCashFlow
    { year := year, revenue := annualRevenue, opex := annualOpex, ebitda := ebitda,
      debtPayment := debtPayment, terminalValue := terminalValue,
      netCashFlow := netCashFlow, cumulativeCashFlow := cum } ::
      opRange p annualLoanPayment horizon count (year + 1) cum

/-- `calculateCashFlows`: the year-0 equity outflow followed by the
operating years `1 .. analysisHorizon`. -/
def calculateCashFlows (p : Params) : List CashFlowYear :=
  let initialInvestment := p.price * p.downPaymentPercent
  let loanAmount := p.price * (1 - p.downPaymentPercent)
  let annualLoanPayment := calculateAnnualLoanPayment p loanAmount p.loanTermYears
  let horizon := (analysisHorizon p).toNat
  { year := 0, revenue := 0, opex := 0, ebitda := 0, debtPayment := 0,
    terminalValue := 0, netCashFlow := -initialInvestment,
    cumulativeCashFlow := -initialInvestment } ::
    opRange p annualLoanPayment horizon horizon 1 (-initialInvestment)

/-- One row of the amortization schedule. -/
structure AmortizationEntry where
  year : ℕ
  startingBalance : ℚ
  payment : ℚ
  principal : ℚ
  interest : ℚ
  endingBalance : ℚ

/-- Default element used with `List.getD` when indexing schedules. -/
def amortDefault : AmortizationEntry :=
  { year := 0, startingBalance := 0, payment := 0, principal := 0,
    interest := 0, endingBalance := 0 }

/-- The inner month loop of `calculateAmortizationSchedule`
(`for (let month = 1; month <= 12 && remainingBalance > 0; month++)`);
returns `(annualInterest, annualPrincipal, remainingBalance)`. -/
def monthLoop (monthlyRate monthlyPayment : ℚ) :
    ℕ → ℚ → ℚ → ℚ → ℚ × ℚ × ℚ
  | 0, remainingBalance, annualInterest, annualPrincipal =>
      (annualInterest, annualPrincipal, remainingBalance)
  | m + 1, remainingBalance, annualInterest, annualPrincipal =>
      if 0 < remainingBalance then
        let interestPayment := remainingBalance * monthlyRate
        let principalPayment := min (monthlyPayment - interestPayment) remainingBalance
        monthLoop monthlyRate monthlyPayment m (remainingBalance - principalPayment)
          (annualInterest + interestPayment) (annualPrincipal + principalPayment)
      else (annualInterest, annualPrincipal, remainingBalance)

/-- The outer year loop of `calculateAmortizationSchedule`. -/
def amortYears (monthlyRate monthlyPayment : ℚ) :
    ℕ → ℕ → ℚ → List AmortizationEntry
  | 0, _, _ => []
  | count + 1, year, remainingBalance =>
      let res := monthLoop monthlyRate monthlyPayment 12 remainingBalance 0 0
      { year := year, startingBalance := remainingBalance,
        payment := res.1 + res.2.1, principal := res.2.1, interest := res.1,
        endingBalance := res.2.2 } ::
        amortYears monthlyRate monthlyPayment count (year + 1) res.2.2

/-- `calculateAmortizationSchedule`, including the `loanAmount === 0` early
return of the empty schedule. -/
def calculateAmortizationSchedule (p : Params) : List AmortizationEntry :=
  let loanAmount := p.price * (1 - p.downPaymentPercent)
  let monthlyRate := p.interestRatePercent / 12
  if loanAmount = 0 then []
  else
    let monthlyPayment := calculateAnnualLoanPayment p loanAmount p.loanTermYears / 12
    amortYears monthlyRate monthlyPayment p.loanTermYears.toNat 1 loanAmount

/-- Discounted sum with explicit running index, shared by `calculateNPV`
(at the fixed `discountRate`) and the NPV evaluation inside `calculateIRR`. -/
def npvAux (rate : ℚ) : ℕ → List CashFlowYear → ℚ
  | _, [] => 0
  | index, cf :: rest => cf.netCashFlow / (1 + rate) ^ index + npvAux rate (index + 1) rest

/-- `calculateNPV`: discrete discounting at the built-in 10% rate. -/
def calculateNPV (cashFlows : List CashFlowYear) : ℚ :=
  npvAux discountRate 0 cashFlows

/-- The derivative accumulator of the IRR Newton iteration:
`dnpv -= (year * cf.netCashFlow) / Math.pow(1 + irr, year + 1)`. -/
def irrDeriv (irr : ℚ) : ℕ → List CashFlowYear → ℚ
  | _, [] => 0
  | year, cf :: rest =>
      -((year : ℚ) * cf.netCashFlow / (1 + irr) ^ (year + 1)) + irrDeriv irr (year + 1) rest

/-- The Newton-Raphson iteration of `calculateIRR`: early return when
`|npv| <` the `0.0001` tolerance, `break` (returning the current estimate)
when the derivative is exactly zero, and the two sequential clamps to
`[-0.99, 10]` after every update. -/
def irrLoop (cashFlows : List CashFlowYear) : ℕ → ℚ → ℚ
  | 0, irr => irr
  | i + 1, irr =>
      let npv := npvAux irr 0 cashFlows
      let dnpv := irrDeriv irr 0 cashFlows
      if |npv| < 1 / 10000 then irr
      else if dnpv = 0 then irr
      else
        let next := irr - npv / dnpv
        let next := if next < -(99 / 100) then -(99 / 100) else next
        let next := if next > 10 then 10 else next
        irrLoop cashFlows i next

/-- `calculateIRR`: 100 iterations maximum from the initial guess `0.1`. -/
def calculateIRR (cashFlows : List CashFlowYear) : ℚ :=
  irrLoop cashFlows 100 (1 / 10)

/-- The loop of `calculatePaybackPeriod`: recomputes the running cumulative
cash flow from the `netCashFlow` fields, returning the interpolated
fractional year at the first index `i > 0` whose cumulative is
non-negative, and `null` (`none`) if the series never turns non-negative. -/
def paybackAux : ℚ → ℕ → List CashFlowYear → Option ℚ
  | _, _, [] => none
  | cumulativeCashFlow, i, cf :: rest =>
      let cum := cumulativeCashFlow + cf.netCashFlow
      if 0 ≤ cum ∧ 0 < i then
        some ((i : ℚ) - 1 + (-cumulativeCashFlow) / cf.netCashFlow)
      else paybackAux cum (i + 1) rest

/-- `calculatePaybackPeriod`. -/
def calculatePaybackPeriod (cashFlows : List CashFlowYear) : Option ℚ :=
  paybackAux 0 0 cashFlows

/-- `calculateKeyRatios` output. -/
structure KeyRatios where
  totalRevenue : ℚ
  totalOpex : ℚ
  avgAnnualEbitda : ℚ
  avgAnnualDebtService : ℚ
  debtServiceCoverageRatio : Option ℚ
  operatingMargin : ℚ
  returnOnInvestment : ℚ

/-- `calculateKeyRatios`.  The ternaries guarding the three divisions are
kept as `if` branches; the DSCR `null` arm becomes `none`. -/
def calculateKeyRatios (p : Params) (cashFlows : List CashFlowYear) : KeyRatios :=
  let operatingCashFlows := cashFlows.drop 1
  let totalRevenue := (operatingCashFlows.map (fun cf => cf.revenue)).sum
  let totalOpex := (operatingCashFlows.map (fun cf => cf.opex)).sum
  let totalDebtPayments := (operatingCashFlows.map (fun cf => cf.debtPayment)).sum
  let avgAnnualEbitda := (totalRevenue - totalOpex) / (operatingCashFlows.length : ℚ)
  let avgAnnualDebtService := totalDebtPayments / (p.loanTermYears : ℚ)
  let avgDSCR :=
    if 0 < avgAnnualDebtService then some (avgAnnualEbitda / avgAnnualDebtService) else none
  { totalRevenue := totalRevenue
    totalOpex := totalOpex
    avgAnnualEbitda := avgAnnualEbitda
    avgAnnualDebtService := avgAnnualDebtService
    debtServiceCoverageRatio := avgDSCR
    operatingMargin := if 0 < totalRevenue then (totalRevenue - totalOpex) / totalRevenue else 0
    returnOnInvestment :=
      if 0 < p.price * p.downPaymentPercent then
        avgAnnualEbitda / (p.price * p.downPaymentPercent)
      else 0 }

/-- `generateSummary`, kept numeric: the rendered strings are
display formatting of exactly these values. -/
structure Summary where
  purchasePrice : ℚ
  loanTermYears : ℤ
  interestRatePercent : ℚ
  dailyRate : ℚ
  utilization : ℚ
  annualOperatingDays : ℤ

/-- `generateSummary`; `Math.round(365 * utilizationPercent)` is `round`. -/
def generateSummary (p : Params) : Summary :=
  { purchasePrice := p.price
    loanTermYears := p.loanTermYears
    interestRatePercent := p.interestRatePercent
    dailyRate := p.dailyCharterRate
    utilization := p.utilizationPercent
    annualOperatingDays := round ((365 : ℚ) * p.utilizationPercent) }

/-- The aggregated `results` object of `calculateFinancialMetrics`. -/
structure Result where
  npv : ℚ
  irr : ℚ
  paybackPeriod : Option ℚ
  cashFlows : List CashFlowYear
  amortizationSchedule : List AmortizationEntry
  keyRatios : KeyRatios
  summary : Summary

/-- `calculateFinancialMetrics` on validated parameters: assembles every
section of the `Result`.  None of the callees can fail, so the source's
`try`/re-`throw` wrapper has no error path here. -/
def calculateFinancialMetrics (p : Params) : Result :=
  let cashFlows := calculateCashFlows p
  { npv := calculateNPV cashFlows
    irr := calculateIRR cashFlows
    paybackPeriod := calculatePaybackPeriod cashFlows
    cashFlows := cashFlows
    amortizationSchedule := calculateAmortizationSchedule p
    keyRatios := calculateKeyRatios p cashFlows
    summary := generateSummary p }

/-- `new VesselFinancialModel(raw).calculateFinancialMetrics()`: the
constructor validates (and can throw), then the metrics are computed. -/
def runModel (raw : RawParams) : Except String Result :=
  (validateParameters raw).map calculateFinancialMetrics

/-- `Chained c l`: every entry's recorded `cumulativeCashFlow` is its
predecessor's (or `c` for the head) plus its own `netCashFlow`.  This is the
link between the fields recorded by `calculateCashFlows` and the running sum
that `calculatePaybackPeriod` recomputes. -/
def Chained : ℚ → List CashFlowYear → Prop
  | _, [] => True
  | c, cf :: rest =>
      cf.cumulativeCashFlow = c + cf.netCashFlow ∧ Chained cf.cumulativeCashFlow rest

/-- The net cash flow of operating year `year` as a function of the
parameters, matching the body of the `opRange` loop. -/
def netYear (p : Params) (annualLoanPayment : ℚ) (horizon : ℕ) (year : ℕ) : ℚ :=
  (p.dailyCharterRate * 365 * p.utilizationPercent - p.opexPerDay * 365) -
    (if (year : ℤ) ≤ p.loanTermYears then annualLoanPayment else 0) +
    (if year = horizon then p.scrapValue else 0)

/-- Closed form of the outstanding balance of a level-payment loan with
monthly payment `M` and monthly rate `r`, `m` payments before maturity.
Used to verify the amortization loop. -/
def annuityBalance (M r : ℚ) (m : ℕ) : ℚ :=
  M * ((1 + r) ^ m - 1) / (r * (1 + r) ^ m)

/-- The spec's worked scenario, already normalized: price 25,000,000, 30%
down, 7-year loan at 6.5%, charter 18,000/day, opex 4,000/day, 85%
utilization, scrap 3,750,000. -/
def scenarioParams : Params :=
  { vesselType := "Unknown", age := 0, price := 25000000, dwt := 0, currency := "USD",
    downPaymentPercent := 30 / 100, loanTermYears := 7,
    interestRatePercent := (13 / 2) / 100, dailyCharterRate := 18000, opexPerDay := 4000,
    utilizationPercent := 85 / 100, scrapValue := 3750000 }

/-- The spec's zero-interest scenario, normalized: price 1,000,000, 10%
down, 5-year loan at 0%. -/
def paramsC9 : Params :=
  { vesselType := "Unknown", age := 0, price := 1000000, dwt := 0, currency := "USD",
    downPaymentPercent := 10 / 100, loanTermYears := 5, interestRatePercent := 0,
    dailyCharterRate := 0, opexPerDay := 0, utilizationPercent := 0, scrapValue := 150000 }

/-- Validated map with a negative price (validation never checks the sign):
price −100, 0% down, 1-year loan at 0%. -/
def paramsC4x : Params :=
  { vesselType := "Unknown", age := 0, price := -100, dwt := 0, currency := "USD",
    downPaymentPercent := 0, loanTermYears := 1, interestRatePercent := 0,
    dailyCharterRate := 0, opexPerDay := 0, utilizationPercent := 0, scrapValue := -15 }

/-- Validated map whose cumulative cash flow hits exactly zero at year 1:
price 100, 50% down, 1-year loan at 0% (annual debt payment 50), zero
EBITDA, supplied scrap 100, so year-1 net is +50 against the −50 outflow. -/
def paramsC5x : Params :=
  { vesselType := "Unknown", age := 0, price := 100, dwt := 0, currency := "USD",
    downPaymentPercent := 50 / 100, loanTermYears := 1, interestRatePercent := 0,
    dailyCharterRate := 10, opexPerDay := 10, utilizationPercent := 100 / 100,
    scrapValue := 100 }

/-- Validated map with EBITDA (−365) below the debt payment (50) in the
only operating year, but a supplied scrap value (1000) large enough to turn
the final cumulative positive. -/
def paramsC6x : Params :=
  { vesselType := "Unknown", age := 0, price := 100, dwt := 0, currency := "USD",
    downPaymentPercent := 50 / 100, loanTermYears := 1, interestRatePercent := 0,
    dailyCharterRate := 1, opexPerDay := 2, utilizationPercent := 100 / 100,
    scrapValue := 1000 }

/-- Raw map supplying `scrapValue = 0` explicitly. -/
def rawC7 : RawParams :=
  { vesselType := none, age := none, price := some 100, dwt := none, currency := none,
    downPaymentPercent := some 20, loanTermYears := some 5, interestRatePercent := some 5,
    dailyCharterRate := some 10, opexPerDay := some 5, utilizationPercent := some 90,
    scrapValue := some 0 }

/-- Raw map supplying a nonzero `scrapValue = 7`. -/
def rawC7b : RawParams :=
  { vesselType := none, age := none, price := some 100, dwt := none, currency := none,
    downPaymentPercent := some 20, loanTermYears := some 5, interestRatePercent := some 5,
    dailyCharterRate := some 10, opexPerDay := some 5, utilizationPercent := some 90,
    scrapValue := some 7 }

/-- The normalization of `rawC7b`. -/
def paramsC7b : Params :=
  { vesselType := "Unknown", age := 0, price := 100, dwt := 0, currency := "USD",
    downPaymentPercent := 20 / 100, loanTermYears := 5, interestRatePercent := 5 / 100,
    dailyCharterRate := 10, opexPerDay := 5, utilizationPercent := 90 / 100,
    scrapValue := 7 }

/-- Validated map with a 100% down payment: the loan amount is zero, so the
source returns the empty schedule. -/
def paramsC8x : Params :=
  { vesselType := "Unknown", age := 0, price := 100, dwt := 0, currency := "USD",
    downPaymentPercent := 100 / 100, loanTermYears := 3, interestRatePercent := 5 / 100,
    dailyCharterRate := 10, opexPerDay := 5, utilizationPercent := 90 / 100,
    scrapValue := 15 }

/-- Like `paramsC6x` but with a small scrap value (15), so the final-year
cumulative stays negative. -/
def paramsC6w : Params :=
  { vesselType := "Unknown", age := 0, price := 100, dwt := 0, currency := "USD",
    downPaymentPercent := 50 / 100, loanTermYears := 1, interestRatePercent := 0,
    dailyCharterRate := 1, opexPerDay := 2, utilizationPercent := 100 / 100,
    scrapValue := 15 }

/-- Raw map with every field absent. -/
def rawAllNone : RawParams :=
  { vesselType := none, age := none, price := none, dwt := none, currency := none,
    downPaymentPercent := none, loanTermYears := none, interestRatePercent := none,
    dailyCharterRate := none, opexPerDay := none, utilizationPercent := none,
    scrapValue := none }

/-- Raw map with only `price` supplied. -/
def rawOnlyPrice : RawParams :=
  { vesselType := none, age := none, price := some 100, dwt := none, currency := none,
    downPaymentPercent := none, loanTermYears := none, interestRatePercent := none,
    dailyCharterRate := none, opexPerDay := none, utilizationPercent := none,
    scrapValue := none }

/-- Raw map with the seven required fields supplied. -/
def rawComplete : RawParams :=
  { vesselType := some "Tanker", age := some 10, price := some 25000000, dwt := some 50000,
    currency := some "USD", downPaymentPercent := some 30, loanTermYears := some 7,
    interestRatePercent := some (13 / 2), dailyCharterRate := some 18000,
    opexPerDay := some 4000, utilizationPercent := some 85, scrapValue := some 3750000 }

/-! ## Structural lemmas about the operating-year loop -/

lemma opRange_length (p : Params) (pay : ℚ) (h : ℕ) :
    ∀ count year c, (opRange p pay h count year c).length = count := by
  intro count
  induction count with
  | zero => intro year c; rfl
  | succ n ih => intro year c; simp [opRange, ih]

lemma opRange_year_getD (p : Params) (pay : ℚ) (h : ℕ) :
    ∀ count year c k, k < count →
      ((opRange p pay h count year c).getD k cfDefault).year = year + k := by
  intro count
  induction count with
  | zero => intro year c k hk; omega
  | succ n ih =>
    intro year c k hk
    match k with
    | 0 => simp [opRange]
    | k + 1 =>
      have := ih (year + 1) (c + netYear p pay h year) k (by omega)
      simpa [opRange, netYear, Nat.add_right_comm] using this

lemma opRange_net_getD (p : Params) (pay : ℚ) (h : ℕ) :
    ∀ count year c k, k < count →
      ((opRange p pay h count year c).getD k cfDefault).netCashFlow =
        netYear p pay h (year + k) := by
  intro count
  induction count with
  | zero => intro year c k hk; omega
  | succ n ih =>
    intro year c k hk
    match k with
    | 0 => simp [opRange, netYear]
    | k + 1 =>
      have := ih (year + 1) (c + netYear p pay h year) k (by omega)
      simpa [opRange, netYear, Nat.add_right_comm] using this

lemma opRange_cum_getD (p : Params) (pay : ℚ) (h : ℕ) :
    ∀ count year c k, k < count →
      ((opRange p pay h count year c).getD k cfDefault).cumulativeCashFlow =
        c + ∑ m ∈ Finset.range (k + 1), netYear p pay h (year + m) := by
  intro count
  induction count with
  | zero => intro year c k hk; omega
  | succ n ih =>
    intro year c k hk
    match k with
    | 0 => simp [opRange, netYear]
    | k + 1 =>
      have hrec := ih (year + 1) (c + netYear p pay h year) k (by omega)
      have hcongr : ∀ m ∈ Finset.range (k + 1),
          netYear p pay h (year + (m + 1)) = netYear p pay h (year + 1 + m) := by
        intro m _
        congr 1
        omega
      have hshift : ∑ m ∈ Finset.range (k + 2), netYear p pay h (year + m) =
          netYear p pay h year + ∑ m ∈ Finset.range (k + 1), netYear p pay h (year + 1 + m) := by
        rw [Finset.sum_range_succ', Finset.sum_congr rfl hcongr, Nat.add_zero]
        exact add_comm _ _
      calc ((opRange p pay h (n + 1) year c).getD (k + 1) cfDefault).cumulativeCashFlow
          = ((opRange p pay h n (year + 1) (c + netYear p pay h year)).getD k
              cfDefault).cumulativeCashFlow := by
            simp [opRange, netYear]
        _ = c + netYear p pay h year +
              ∑ m ∈ Finset.range (k + 1), netYear p pay h (year + 1 + m) := hrec
        _ = c + ∑ m ∈ Finset.range (k + 2), netYear p pay h (year + m) := by
            rw [hshift]; ring

lemma opRange_chained (p : Params) (pay : ℚ) (h : ℕ) :
    ∀ count year c, Chained c (opRange p pay h count year c) := by
  intro count
  induction count with
  | zero => intro year c; trivial
  | succ n ih =>
    intro year c
    refine ⟨rfl, ?_⟩
    exact ih (year + 1) _

/-- Claim C1: for every validated parameter map (`loanTermYears ≥ 1`), the
cash-flow series has exactly `loanTermYears + 1` entries indexed
`0 .. loanTermYears` (the horizon equals the loan term), and the year-0
entry's `netCashFlow` and `cumulativeCashFlow` both equal
`−(price × downPaymentPercent)` (with `downPaymentPercent` the normalized
fraction, i.e. the raw percentage divided by 100). -/
theorem c1_cash_flow_series_shape (p : Params) (hT : 1 ≤ p.loanTermYears) :
    (calculateCashFlows p).length = p.loanTermYears.toNat + 1 ∧
    (∀ k, k < (calculateCashFlows p).length →
      ((calculateCashFlows p).getD k cfDefault).year = k) ∧
    ((calculateCashFlows p).getD 0 cfDefault).netCashFlow =
      -(p.price * p.downPaymentPercent) ∧
    ((calculateCashFlows p).getD 0 cfDefault).cumulativeCashFlow =
      -(p.price * p.downPaymentPercent) := by
  have hh : analysisHorizon p = p.loanTermYears := by
    unfold analysisHorizon
    rw [if_neg (by omega)]
  refine ⟨?_, ?_, rfl, rfl⟩
  · simp [calculateCashFlows, opRange_length, hh]
  · intro k hk
    match k with
    | 0 => rfl
    | k + 1 =>
      have hlen : (calculateCashFlows p).length = (analysisHorizon p).toNat + 1 := by
        simp [calculateCashFlows, opRange_length]
      rw [hlen] at hk
      have := opRange_year_getD p
        (calculateAnnualLoanPayment p (p.price * (1 - p.downPaymentPercent)) p.loanTermYears)
        (analysisHorizon p).toNat (analysisHorizon p).toNat 1
        (-(p.price * p.downPaymentPercent)) k (by omega)
      simpa [calculateCashFlows, Nat.add_comm] using this

/-- Witness for C1 at the spec's scenario: with price 25,000,000, 30% down,
a 7-year loan at 6.5%, the series has 8 entries and the year-0 net cash
flow is −7,500,000. -/
theorem c1_witness :
    (calculateCashFlows scenarioParams).length = 8 ∧
    ((calculateCashFlows scenarioParams).getD 0 cfDefault).netCashFlow = -7500000 := by
  have h := c1_cash_flow_series_shape scenarioParams (by decide)
  refine ⟨?_, ?_⟩
  · rw [h.1]; rfl
  · rw [h.2.2.1]; norm_num [scenarioParams]

/-- Claim C2: whenever the seven required fields are all present, the whole
pipeline returns a complete `Result` (it can only fail in validation; every
numerical edge case is an explicit branch, not a raise). -/
theorem c2_complete_result_on_present_fields (raw : RawParams)
    (h1 : raw.price.isSome) (h2 : raw.downPaymentPercent.isSome)
    (h3 : raw.loanTermYears.isSome) (h4 : raw.interestRatePercent.isSome)
    (h5 : raw.dailyCharterRate.isSome) (h6 : raw.opexPerDay.isSome)
    (h7 : raw.utilizationPercent.isSome) :
    ∃ res : Result, runModel raw = Except.ok res := by
  rcases hp : raw.price with _ | pr
  · rw [hp] at h1; simp at h1
  rcases hdp : raw.downPaymentPercent with _ | dp
  · rw [hdp] at h2; simp at h2
  rcases hlt : raw.loanTermYears with _ | lt
  · rw [hlt] at h3; simp at h3
  rcases hir : raw.interestRatePercent with _ | ir
  · rw [hir] at h4; simp at h4
  rcases hdc : raw.dailyCharterRate with _ | dc
  · rw [hdc] at h5; simp at h5
  rcases hop : raw.opexPerDay with _ | op
  · rw [hop] at h6; simp at h6
  rcases hu : raw.utilizationPercent with _ | u
  · rw [hu] at h7; simp at h7
  rcases hv : validateParameters raw with e | q
  · rw [validateParameters, hp, hdp, hlt, hir, hdc, hop, hu] at hv
    simp at hv
  · exact ⟨calculateFinancialMetrics q, by simp [runModel, hv, Except.map]⟩

/-- Witness for C2 at a fully populated raw map. -/
theorem c2_witness : ∃ res : Result, runModel rawComplete = Except.ok res :=
  c2_complete_result_on_present_fields rawComplete rfl rfl rfl rfl rfl rfl rfl

/-- Claim C3: if a required field is absent, the run aborts with the
missing-parameter error naming the first absent field in the source's fixed
check order (price, downPaymentPercent, loanTermYears, interestRatePercent,
dailyCharterRate, opexPerDay, utilizationPercent), and no `Result` at all
is produced. -/
theorem c3_first_missing_field_error (raw : RawParams) :
    (raw.price = none →
      runModel raw = Except.error ("Missing required parameter: price")) ∧
    (raw.price.isSome → raw.downPaymentPercent = none →
      runModel raw = Except.error ("Missing required parameter: downPaymentPercent")) ∧
    (raw.price.isSome → raw.downPaymentPercent.isSome → raw.loanTermYears = none →
      runModel raw = Except.error ("Missing required parameter: loanTermYears")) ∧
    (raw.price.isSome → raw.downPaymentPercent.isSome → raw.loanTermYears.isSome →
      raw.interestRatePercent = none →
      runModel raw = Except.error ("Missing required parameter: interestRatePercent")) ∧
    (raw.price.isSome → raw.downPaymentPercent.isSome → raw.loanTermYears.isSome →
      raw.interestRatePercent.isSome → raw.dailyCharterRate = none →
      runModel raw = Except.error ("Missing required parameter: dailyCharterRate")) ∧
    (raw.price.isSome → raw.downPaymentPercent.isSome → raw.loanTermYears.isSome →
      raw.interestRatePercent.isSome → raw.dailyCharterRate.isSome →
      raw.opexPerDay = none →
      runModel raw = Except.error ("Missing required parameter: opexPerDay")) ∧
    (raw.price.isSome → raw.downPaymentPercent.isSome → raw.loanTermYears.isSome →
      raw.interestRatePercent.isSome → raw.dailyCharterRate.isSome →
      raw.opexPerDay.isSome → raw.utilizationPercent = none →
      runModel raw = Except.error ("Missing required parameter: utilizationPercent")) := by
  refine ⟨?_, ?_, ?_, ?_, ?_, ?_, ?_⟩
  · intro h0
    simp [runModel, validateParameters, h0, Except.map]
  · intro h1 h0
    rcases hp : raw.price with _ | pr
    · rw [hp] at h1; simp at h1
    simp [runModel, validateParameters, hp, h0, Except.map]
  · intro h1 h2 h0
    rcases hp : raw.price with _ | pr
    · rw [hp] at h1; simp at h1
    rcases hdp : raw.downPaymentPercent with _ | dp
    · rw [hdp] at h2; simp at h2
    simp [runModel, validateParameters, hp, hdp, h0, Except.map]
  · intro h1 h2 h3 h0
    rcases hp : raw.price with _ | pr
    · rw [hp] at h1; simp at h1
    rcases hdp : raw.downPaymentPercent with _ | dp
    · rw [hdp] at h2; simp at h2
    rcases hlt : raw.loanTermYears with _ | lt
    · rw [hlt] at h3; simp at h3
    simp [runModel, validateParameters, hp, hdp, hlt, h0, Except.map]
  · intro h1 h2 h3 h4 h0
    rcases hp : raw.price with _ | pr
    · rw [hp] at h1; simp at h1
    rcases hdp : raw.downPaymentPercent with _ | dp
    · rw [hdp] at h2; simp at h2
    rcases hlt : raw.loanTermYears with _ | lt
    · rw [hlt] at h3; simp at h3
    rcases hir : raw.interestRatePercent with _ | ir
    · rw [hir] at h4; simp at h4
    simp [runModel, validateParameters, hp, hdp, hlt, hir, h0, Except.map]
  · intro h1 h2 h3 h4 h5 h0
    rcases hp : raw.price with _ | pr
    · rw [hp] at h1; simp at h1
    rcases hdp : raw.downPaymentPercent with _ | dp
    · rw [hdp] at h2; simp at h2
    rcases hlt : raw.loanTermYears with _ | lt
    · rw [hlt] at h3; simp at h3
    rcases hir : raw.interestRatePercent with _ | ir
    · rw [hir] at h4; simp at h4
    rcases hdc : raw.dailyCharterRate with _ | dc
    · rw [hdc] at h5; simp at h5
    simp [runModel, validateParameters, hp, hdp, hlt, hir, hdc, h0, Except.map]
  · intro h1 h2 h3 h4 h5 h6 h0
    rcases hp : raw.price with _ | pr
    · rw [hp] at h1; simp at h1
    rcases hdp : raw.downPaymentPercent with _ | dp
    · rw [hdp] at h2; simp at h2
    rcases hlt : raw.loanTermYears with _ | lt
    · rw [hlt] at h3; simp at h3
    rcases hir : raw.interestRatePercent with _ | ir
    · rw [hir] at h4; simp at h4
    rcases hdc : raw.dailyCharterRate with _ | dc
    · rw [hdc] at h5; simp at h5
    rcases hop : raw.opexPerDay with _ | op
    · rw [hop] at h6; simp at h6
    simp [runModel, validateParameters, hp, hdp, hlt, hir, hdc, hop, h0, Except.map]

/-- Witness for C3: with every field absent the error names `price`; with
only `price` present it names `downPaymentPercent`. -/
theorem c3_witness :
    runModel rawAllNone = Except.error ("Missing required parameter: price") ∧
    runModel rawOnlyPrice =
      Except.error ("Missing required parameter: downPaymentPercent") :=
  ⟨(c3_first_missing_field_error rawAllNone).1 rfl,
   (c3_first_missing_field_error rawOnlyPrice).2.1 rfl rfl⟩

/-! ## IRR clamping -/

lemma irrLoop_bounds (cfs : List CashFlowYear) :
    ∀ n irr, -(99 / 100) ≤ irr → irr ≤ 10 →
      -(99 / 100) ≤ irrLoop cfs n irr ∧ irrLoop cfs n irr ≤ 10 := by
  intro n
  induction n with
  | zero => intro irr ha hb; exact ⟨ha, hb⟩
  | succ m ih =>
    intro irr ha hb
    by_cases hnpv : |npvAux irr 0 cfs| < 1 / 10000
    · have heq : irrLoop cfs (m + 1) irr = irr := by
        simp only [irrLoop]
        rw [if_pos hnpv]
      rw [heq]; exact ⟨ha, hb⟩
    · by_cases hd : irrDeriv irr 0 cfs = 0
      · have heq : irrLoop cfs (m + 1) irr = irr := by
          simp only [irrLoop]
          rw [if_neg hnpv, if_pos hd]
        rw [heq]; exact ⟨ha, hb⟩
      · have hclamp : ∀ x : ℚ,
            -(99 / 100) ≤ (if (if x < -(99 / 100) then -(99 / 100) else x) > 10 then 10
              else (if x < -(99 / 100) then -(99 / 100) else x)) ∧
            (if (if x < -(99 / 100) then -(99 / 100) else x) > 10 then 10
              else (if x < -(99 / 100) then -(99 / 100) else x)) ≤ 10 := by
          intro x
          by_cases hx1 : x < -(99 / 100)
          · rw [if_pos hx1]
            by_cases hx2 : (-(99 / 100) : ℚ) > 10
            · norm_num at hx2
            · rw [if_neg hx2]; norm_num
          · rw [if_neg hx1]
            by_cases hx2 : x > 10
            · rw [if_pos hx2]; norm_num
            · rw [if_neg hx2]; exact ⟨not_lt.mp hx1, not_lt.mp hx2⟩
        have hib := hclamp (irr - npvAux irr 0 cfs / irrDeriv irr 0 cfs)
        have hres := ih _ hib.1 hib.2
        simp only [irrLoop]
        rw [if_neg hnpv, if_neg hd]
        exact hres

/-- Claim C10: on every cash-flow series, `calculateIRR` (100 Newton
iterations from the initial guess 0.10, each update clamped) returns a
value in the closed interval `[−0.99, 10]`, the iteration-cap and
zero-derivative exits included. -/
theorem c10_irr_always_clamped (cfs : List CashFlowYear) :
    -(99 / 100) ≤ calculateIRR cfs ∧ calculateIRR cfs ≤ 10 :=
  irrLoop_bounds cfs 100 (1 / 10) (by norm_num) (by norm_num)

/-! ## Amortization-schedule lemmas -/

lemma amortYears_length (r M : ℚ) :
    ∀ count year b, (amortYears r M count year b).length = count := by
  intro count
  induction count with
  | zero => intro year b; rfl
  | succ n ih => intro year b; simp [amortYears, ih]

lemma amortYears_year_getD (r M : ℚ) :
    ∀ count year b k, k < count →
      ((amortYears r M count year b).getD k amortDefault).year = year + k := by
  intro count
  induction count with
  | zero => intro year b k hk; omega
  | succ n ih =>
    intro year b k hk
    match k with
    | 0 => simp [amortYears]
    | k + 1 =>
      have := ih (year + 1) (monthLoop r M 12 b 0 0).2.2 k (by omega)
      simpa [amortYears, Nat.add_right_comm] using this

lemma calculateAmortizationSchedule_eq (p : Params)
    (hL0 : p.price * (1 - p.downPaymentPercent) ≠ 0) :
    calculateAmortizationSchedule p =
      amortYears (p.interestRatePercent / 12)
        (calculateAnnualLoanPayment p (p.price * (1 - p.downPaymentPercent))
          p.loanTermYears / 12)
        p.loanTermYears.toNat 1 (p.price * (1 - p.downPaymentPercent)) := by
  simp only [calculateAmortizationSchedule]
  rw [if_neg hL0]

lemma monthLoop_nonpos (r M : ℚ) (k : ℕ) (b ai ap : ℚ) (hb : ¬ 0 < b) :
    monthLoop r M k b ai ap = (ai, ap, b) := by
  match k with
  | 0 => rfl
  | k + 1 =>
    simp only [monthLoop]
    rw [if_neg hb]

lemma amortYears_nonpos (r M b : ℚ) (hb : ¬ 0 < b) :
    ∀ count year, ∀ e ∈ amortYears r M count year b,
      e.principal = 0 ∧ e.endingBalance = b := by
  intro count
  induction count with
  | zero => intro year e he; simp [amortYears] at he
  | succ n ih =>
    intro year e he
    rw [amortYears] at he
    rw [monthLoop_nonpos r M 12 b 0 0 hb] at he
    rcases List.mem_cons.mp he with h | h
    · subst h; exact ⟨rfl, rfl⟩
    · exact ih (year + 1) e h

lemma monthLoop_zero_rate (M : ℚ) (hM : 0 < M) :
    ∀ k m, k ≤ m → ∀ ai ap, monthLoop 0 M k ((m : ℚ) * M) ai ap =
      (ai, ap + (k : ℚ) * M, ((m - k : ℕ) : ℚ) * M) := by
  intro k
  induction k with
  | zero =>
    intro m hk ai ap
    simp [monthLoop]
  | succ j ih =>
    intro m hk ai ap
    obtain ⟨m', rfl⟩ : ∃ m', m = m' + 1 := ⟨m - 1, by omega⟩
    have hbal : (0 : ℚ) < ((m' + 1 : ℕ) : ℚ) * M := by
      apply mul_pos _ hM
      exact_mod_cast Nat.succ_pos m'
    have h1le : (1 : ℚ) ≤ ((m' + 1 : ℕ) : ℚ) := by
      exact_mod_cast Nat.succ_le_succ (Nat.zero_le m')
    have hMle : M ≤ ((m' + 1 : ℕ) : ℚ) * M := by nlinarith
    simp only [monthLoop]
    rw [if_pos hbal]
    rw [mul_zero, sub_zero, min_eq_left hMle, add_zero]
    have hb' : ((m' + 1 : ℕ) : ℚ) * M - M = ((m' : ℕ) : ℚ) * M := by
      push_cast
      ring
    rw [hb']
    rw [ih m' (by omega) ai (ap + M), Nat.succ_sub_succ]
    have hap : ap + M + (j : ℚ) * M = ap + ((j + 1 : ℕ) : ℚ) * M := by
      push_cast
      ring
    rw [hap]

lemma amortYears_cons (r M : ℚ) (count year : ℕ) (b : ℚ) :
    amortYears r M (count + 1) year b =
      { year := year, startingBalance := b,
        payment := (monthLoop r M 12 b 0 0).1 + (monthLoop r M 12 b 0 0).2.1,
        principal := (monthLoop r M 12 b 0 0).2.1,
        interest := (monthLoop r M 12 b 0 0).1,
        endingBalance := (monthLoop r M 12 b 0 0).2.2 } ::
        amortYears r M count (year + 1) (monthLoop r M 12 b 0 0).2.2 := rfl

lemma amortYears_zero_rate (M : ℚ) (hM : 0 < M) :
    ∀ count year,
      (∀ e ∈ amortYears 0 M count year (((12 * count : ℕ) : ℚ) * M),
        e.principal = ((12 : ℕ) : ℚ) * M) ∧
      ((amortYears 0 M count year (((12 * count : ℕ) : ℚ) * M)).map
        (fun e => e.principal)).sum = ((12 * count : ℕ) : ℚ) * M ∧
      ∀ e, (amortYears 0 M count year (((12 * count : ℕ) : ℚ) * M)).getLast? = some e →
        e.endingBalance = 0 := by
  intro count
  induction count with
  | zero =>
    intro year
    refine ⟨?_, ?_, ?_⟩
    · intro e he; simp [amortYears] at he
    · simp [amortYears]
    · intro e he; simp [amortYears] at he
  | succ c ih =>
    intro year
    have hres : monthLoop 0 M 12 (((12 * (c + 1) : ℕ) : ℚ) * M) 0 0 =
        (0, 0 + ((12 : ℕ) : ℚ) * M, ((12 * (c + 1) - 12 : ℕ) : ℚ) * M) :=
      monthLoop_zero_rate M hM 12 (12 * (c + 1)) (by omega) 0 0
    have h12 : 12 * (c + 1) - 12 = 12 * c := by omega
    rw [h12] at hres
    have hlist : amortYears 0 M (c + 1) year (((12 * (c + 1) : ℕ) : ℚ) * M) =
        { year := year, startingBalance := ((12 * (c + 1) : ℕ) : ℚ) * M,
          payment := 0 + (0 + ((12 : ℕ) : ℚ) * M),
          principal := 0 + ((12 : ℕ) : ℚ) * M, interest := 0,
          endingBalance := ((12 * c : ℕ) : ℚ) * M } ::
          amortYears 0 M c (year + 1) (((12 * c : ℕ) : ℚ) * M) := by
      rw [amortYears_cons, hres]
    refine ⟨?_, ?_, ?_⟩
    · intro e he
      rw [hlist] at he
      rcases List.mem_cons.mp he with h | h
      · subst h; simp
      · exact (ih (year + 1)).1 e h
    · rw [hlist]
      simp only [List.map_cons, List.sum_cons]
      rw [(ih (year + 1)).2.1]
      push_cast
      ring
    · intro e he
      rw [hlist] at he
      match c, he with
      | 0, he =>
        rw [show amortYears 0 M 0 (year + 1) (((12 * 0 : ℕ) : ℚ) * M) = [] from rfl,
          List.getLast?_singleton] at he
        cases he
        show ((12 * 0 : ℕ) : ℚ) * M = 0
        norm_num
      | c' + 1, he =>
        rw [amortYears_cons, List.getLast?_cons_cons, ← amortYears_cons] at he
        exact (ih (year + 1)).2.2 e he

lemma annuityBalance_zero (M r : ℚ) : annuityBalance M r 0 = 0 := by
  simp [annuityBalance]

lemma annuity_closure (L r x : ℚ) (hr : r ≠ 0) (hx : x ≠ 0) (hx1 : x - 1 ≠ 0) :
    L = L * (r * x) / (x - 1) * (x - 1) / (r * x) := by
  field_simp

lemma annuityBalance_nonneg (M r : ℚ) (hM : 0 ≤ M) (hr : 0 < r) (m : ℕ) :
    0 ≤ annuityBalance M r m := by
  unfold annuityBalance
  apply div_nonneg
  · apply mul_nonneg hM
    have h1 : (1 : ℚ) ≤ (1 + r) ^ m := one_le_pow₀ (by linarith)
    linarith
  · have h2 : (0 : ℚ) < (1 + r) ^ m := pow_pos (by linarith) m
    positivity

lemma annuityBalance_pos (M r : ℚ) (hM : 0 < M) (hr : 0 < r) (m : ℕ) (hm : 1 ≤ m) :
    0 < annuityBalance M r m := by
  unfold annuityBalance
  apply div_pos
  · apply mul_pos hM
    have h1 : (1 : ℚ) < (1 + r) ^ m := one_lt_pow₀ (by linarith) (by omega)
    linarith
  · have h2 : (0 : ℚ) < (1 + r) ^ m := pow_pos (by linarith) m
    positivity

lemma annuity_step (M r : ℚ) (hr : r ≠ 0) (h1r : (1 : ℚ) + r ≠ 0) (m : ℕ) :
    (1 + r) * annuityBalance M r (m + 1) - M = annuityBalance M r m := by
  have hpm : ((1 : ℚ) + r) ^ m ≠ 0 := pow_ne_zero _ h1r
  have hpm1 : ((1 : ℚ) + r) ^ (m + 1) ≠ 0 := pow_ne_zero _ h1r
  field_simp [annuityBalance]
  ring

lemma monthLoop_annuity (M r : ℚ) (hr : 0 < r) (hM : 0 < M) :
    ∀ k m, k ≤ m → ∀ ai ap, ∃ ai',
      monthLoop r M k (annuityBalance M r m) ai ap =
        (ai', ap + (annuityBalance M r m - annuityBalance M r (m - k)),
          annuityBalance M r (m - k)) := by
  intro k
  induction k with
  | zero =>
    intro m hk ai ap
    refine ⟨ai, ?_⟩
    simp [monthLoop]
  | succ j ih =>
    intro m hk ai ap
    obtain ⟨m', rfl⟩ : ∃ m', m = m' + 1 := ⟨m - 1, by omega⟩
    have h1r : (0 : ℚ) < 1 + r := by linarith
    have hbal : 0 < annuityBalance M r (m' + 1) :=
      annuityBalance_pos M r hM hr (m' + 1) (by omega)
    have hstep : (1 + r) * annuityBalance M r (m' + 1) - M = annuityBalance M r m' :=
      annuity_step M r (ne_of_gt hr) (ne_of_gt h1r) m'
    have hnn : 0 ≤ annuityBalance M r m' := annuityBalance_nonneg M r (le_of_lt hM) hr m'
    have hle : M - annuityBalance M r (m' + 1) * r ≤ annuityBalance M r (m' + 1) := by
      nlinarith
    have hb2 : annuityBalance M r (m' + 1) - (M - annuityBalance M r (m' + 1) * r) =
        annuityBalance M r m' := by
      linear_combination hstep
    simp only [monthLoop]
    rw [if_pos hbal]
    rw [min_eq_left hle, hb2, Nat.succ_sub_succ]
    obtain ⟨ai', hrec⟩ := ih m' (by omega)
      (ai + annuityBalance M r (m' + 1) * r) (ap + (M - annuityBalance M r (m' + 1) * r))
    refine ⟨ai', ?_⟩
    rw [hrec]
    have hsum : ap + (M - annuityBalance M r (m' + 1) * r) +
        (annuityBalance M r m' - annuityBalance M r (m' - j)) =
        ap + (annuityBalance M r (m' + 1) - annuityBalance M r (m' - j)) := by
      linear_combination -hstep
    rw [hsum]

lemma amortYears_annuity (M r : ℚ) (hr : 0 < r) (hM : 0 < M) :
    ∀ count year,
      ((amortYears r M count year (annuityBalance M r (12 * count))).map
        (fun e => e.principal)).sum = annuityBalance M r (12 * count) ∧
      ∀ e, (amortYears r M count year (annuityBalance M r (12 * count))).getLast? =
          some e → e.endingBalance = 0 := by
  intro count
  induction count with
  | zero =>
    intro year
    refine ⟨?_, ?_⟩
    · simp [amortYears, annuityBalance_zero]
    · intro e he; simp [amortYears] at he
  | succ c ih =>
    intro year
    obtain ⟨ai', hres⟩ := monthLoop_annuity M r hr hM 12 (12 * (c + 1)) (by omega) 0 0
    have h12 : 12 * (c + 1) - 12 = 12 * c := by omega
    rw [h12] at hres
    have hlist : amortYears r M (c + 1) year (annuityBalance M r (12 * (c + 1))) =
        { year := year, startingBalance := annuityBalance M r (12 * (c + 1)),
          payment := ai' +
            (0 + (annuityBalance M r (12 * (c + 1)) - annuityBalance M r (12 * c))),
          principal :=
            0 + (annuityBalance M r (12 * (c + 1)) - annuityBalance M r (12 * c)),
          interest := ai',
          endingBalance := annuityBalance M r (12 * c) } ::
          amortYears r M c (year + 1) (annuityBalance M r (12 * c)) := by
      rw [amortYears_cons, hres]
    refine ⟨?_, ?_⟩
    · rw [hlist]
      simp only [List.map_cons, List.sum_cons]
      rw [(ih (year + 1)).1]
      ring
    · intro e he
      rw [hlist] at he
      match c, he with
      | 0, he =>
        rw [show amortYears r M 0 (year + 1) (annuityBalance M r (12 * 0)) = []
            from rfl, List.getLast?_singleton] at he
        cases he
        show annuityBalance M r (12 * 0) = 0
        rw [show 12 * 0 = 0 from rfl, annuityBalance_zero]
      | c' + 1, he =>
        rw [amortYears_cons, List.getLast?_cons_cons, ← amortYears_cons] at he
        exact (ih (year + 1)).2 e he

/-- Claim C4 (amended: additionally `0 ≤ price`; validation never checks the
price's sign, and a negative price leaves the balance untouched, see the
counterexample): for every validated parameter map with `loanTermYears ≥ 1`
and both percentage fields in `[0, 100]` (fractions in `[0, 1]`), the sum of
the `principal` fields equals the loan principal
`price × (1 − downPaymentPercent)` exactly, and the final entry's
`endingBalance` (when the schedule is nonempty) is within `1e-6` of zero —
in exact arithmetic it is exactly zero. -/
theorem c4_amortization_exact (p : Params) (hT : 1 ≤ p.loanTermYears)
    (hprice : 0 ≤ p.price)
    (hdp0 : 0 ≤ p.downPaymentPercent) (hdp1 : p.downPaymentPercent ≤ 1)
    (hir0 : 0 ≤ p.interestRatePercent) (hir1 : p.interestRatePercent ≤ 1) :
    ((calculateAmortizationSchedule p).map (fun e => e.principal)).sum =
      p.price * (1 - p.downPaymentPercent) ∧
    ∀ e, (calculateAmortizationSchedule p).getLast? = some e →
      |e.endingBalance| ≤ 1 / 1000000 := by
  by_cases hL0 : p.price * (1 - p.downPaymentPercent) = 0
  · have hsched : calculateAmortizationSchedule p = [] := by
      simp only [calculateAmortizationSchedule]
      rw [if_pos hL0]
    rw [hsched, hL0]
    exact ⟨rfl, fun e he => by simp at he⟩
  · have hLpos : 0 < p.price * (1 - p.downPaymentPercent) :=
      lt_of_le_of_ne (mul_nonneg hprice (by linarith)) (Ne.symm hL0)
    have hTtn : 1 ≤ p.loanTermYears.toNat := by omega
    have hTQ : ((p.loanTermYears.toNat : ℕ) : ℚ) = (p.loanTermYears : ℚ) := by
      exact_mod_cast Int.toNat_of_nonneg (show (0 : ℤ) ≤ p.loanTermYears by omega)
    have hTQpos : (0 : ℚ) < (p.loanTermYears : ℚ) := by
      exact_mod_cast show (0 : ℤ) < p.loanTermYears by omega
    rw [calculateAmortizationSchedule_eq p hL0]
    by_cases hr0 : p.interestRatePercent / 12 = 0
    · have hpay : calculateAnnualLoanPayment p (p.price * (1 - p.downPaymentPercent))
          p.loanTermYears = p.price * (1 - p.downPaymentPercent) / (p.loanTermYears : ℚ) := by
        simp only [calculateAnnualLoanPayment]
        rw [if_pos hr0]
      have hM0 : 0 < p.price * (1 - p.downPaymentPercent) / (p.loanTermYears : ℚ) / 12 := by
        positivity
      rw [hr0, hpay]
      set M := p.price * (1 - p.downPaymentPercent) / (p.loanTermYears : ℚ) / 12 with hMdef
      have hcast : ((12 * p.loanTermYears.toNat : ℕ) : ℚ) = 12 * (p.loanTermYears : ℚ) := by
        push_cast [hTQ]
        ring
      have hstart : p.price * (1 - p.downPaymentPercent) =
          ((12 * p.loanTermYears.toNat : ℕ) : ℚ) * M := by
        rw [hcast, hMdef]
        field_simp
        ring
      rw [hstart]
      refine ⟨(amortYears_zero_rate M hM0 p.loanTermYears.toNat 1).2.1, ?_⟩
      intro e he
      rw [(amortYears_zero_rate M hM0 p.loanTermYears.toNat 1).2.2 e he]
      norm_num
    · have hrpos : 0 < p.interestRatePercent / 12 :=
        lt_of_le_of_ne (div_nonneg hir0 (by norm_num)) (Ne.symm hr0)
      have h1r : (0 : ℚ) < 1 + p.interestRatePercent / 12 := by linarith
      have hzn : (p.loanTermYears * 12 : ℤ) = ((12 * p.loanTermYears.toNat : ℕ) : ℤ) := by
        omega
      have hpow_pos : (0 : ℚ) <
          (1 + p.interestRatePercent / 12) ^ (12 * p.loanTermYears.toNat) :=
        pow_pos h1r _
      have hpow1 : 1 < (1 + p.interestRatePercent / 12) ^ (12 * p.loanTermYears.toNat) :=
        one_lt_pow₀ (by linarith) (by omega)
      have hpowne : (1 + p.interestRatePercent / 12) ^ (12 * p.loanTermYears.toNat) - 1 ≠ 0 :=
        sub_ne_zero.mpr (ne_of_gt hpow1)
      have hpay : calculateAnnualLoanPayment p (p.price * (1 - p.downPaymentPercent))
          p.loanTermYears =
          (p.price * (1 - p.downPaymentPercent) *
            (p.interestRatePercent / 12 *
              (1 + p.interestRatePercent / 12) ^ (12 * p.loanTermYears.toNat)) /
            ((1 + p.interestRatePercent / 12) ^ (12 * p.loanTermYears.toNat) - 1)) * 12 := by
        simp only [calculateAnnualLoanPayment]
        rw [if_neg hr0, hzn, zpow_natCast]
      have hMP : calculateAnnualLoanPayment p (p.price * (1 - p.downPaymentPercent))
          p.loanTermYears / 12 =
          p.price * (1 - p.downPaymentPercent) *
            (p.interestRatePercent / 12 *
              (1 + p.interestRatePercent / 12) ^ (12 * p.loanTermYears.toNat)) /
            ((1 + p.interestRatePercent / 12) ^ (12 * p.loanTermYears.toNat) - 1) := by
        rw [hpay, mul_div_assoc]
        norm_num
      rw [hMP]
      set M := p.price * (1 - p.downPaymentPercent) *
        (p.interestRatePercent / 12 *
          (1 + p.interestRatePercent / 12) ^ (12 * p.loanTermYears.toNat)) /
        ((1 + p.interestRatePercent / 12) ^ (12 * p.loanTermYears.toNat) - 1) with hMdef
    -- the starting balance is exactly the annuity value of all the payments
      have hM : 0 < M := by
        rw [hMdef]
        exact div_pos (mul_pos hLpos (mul_pos hrpos hpow_pos)) (sub_pos.mpr hpow1)
      have hLB : p.price * (1 - p.downPaymentPercent) =
          annuityBalance M (p.interestRatePercent / 12) (12 * p.loanTermYears.toNat) := by
        rw [hMdef]
        unfold annuityBalance
        exact annuity_closure (p.price * (1 - p.downPaymentPercent))
          (p.interestRatePercent / 12)
          ((1 + p.interestRatePercent / 12) ^ (12 * p.loanTermYears.toNat))
          hr0 (ne_of_gt hpow_pos) hpowne
      rw [hLB]
      refine ⟨(amortYears_annuity M (p.interestRatePercent / 12) hrpos hM
        p.loanTermYears.toNat 1).1, ?_⟩
      intro e he
      rw [(amortYears_annuity M (p.interestRatePercent / 12) hrpos hM
        p.loanTermYears.toNat 1).2 e he]
      norm_num

/-- Counterexample to C4 as stated: `paramsC4x` passes validation (all seven
required fields present) and satisfies every constraint the claim names
(`loanTermYears = 1 ≥ 1`, percentage fractions in `[0, 1]`), yet its price is
negative, the month loop's `remainingBalance > 0` guard never fires, the
principal column sums to 0 instead of the loan principal −100, and the final
ending balance is −100, far outside `1e-6`. -/
theorem c4_counterexample :
    1 ≤ paramsC4x.loanTermYears ∧
    0 ≤ paramsC4x.downPaymentPercent ∧ paramsC4x.downPaymentPercent ≤ 1 ∧
    0 ≤ paramsC4x.interestRatePercent ∧ paramsC4x.interestRatePercent ≤ 1 ∧
    ((calculateAmortizationSchedule paramsC4x).map (fun e => e.principal)).sum = 0 ∧
    paramsC4x.price * (1 - paramsC4x.downPaymentPercent) = -100 ∧
    ((calculateAmortizationSchedule paramsC4x).map
      (fun e => e.endingBalance)).getLast? = some (-100) := by
  norm_num [paramsC4x, calculateAmortizationSchedule, calculateAnnualLoanPayment,
    amortYears, monthLoop]

/-- Witness for `c4_amortization_exact` at the spec's 6.5%-rate scenario. -/
theorem c4_witness :
    ((calculateAmortizationSchedule scenarioParams).map (fun e => e.principal)).sum =
      scenarioParams.price * (1 - scenarioParams.downPaymentPercent) ∧
    ∀ e, (calculateAmortizationSchedule scenarioParams).getLast? = some e →
      |e.endingBalance| ≤ 1 / 1000000 :=
  c4_amortization_exact scenarioParams (by decide) (by norm_num [scenarioParams])
    (by norm_num [scenarioParams]) (by norm_num [scenarioParams])
    (by norm_num [scenarioParams]) (by norm_num [scenarioParams])

/-- Claim C8 (amended: additionally the loan amount
`price × (1 − downPaymentPercent)` is nonzero; with a 100% down payment, or
a zero price, the source returns the empty schedule instead of one entry
per loan year, see the counterexample): for a validated map with
`loanTermYears ≥ 1` and nonzero loan amount, the schedule has exactly
`loanTermYears` entries with `year` fields `1 .. loanTermYears`. -/
theorem c8_schedule_one_entry_per_year (p : Params) (hT : 1 ≤ p.loanTermYears)
    (hL : p.price * (1 - p.downPaymentPercent) ≠ 0) :
    (calculateAmortizationSchedule p).length = p.loanTermYears.toNat ∧
    ∀ k, k < (calculateAmortizationSchedule p).length →
      ((calculateAmortizationSchedule p).getD k amortDefault).year = k + 1 := by
  rw [calculateAmortizationSchedule_eq p hL]
  refine ⟨amortYears_length _ _ _ _ _, ?_⟩
  intro k hk
  rw [amortYears_length] at hk
  rw [amortYears_year_getD _ _ _ _ _ k hk]
  omega

/-- Counterexample to C8 as stated: `paramsC8x` has
`downPaymentPercent = 100` (within the claim's 0–100 range) and
`loanTermYears = 3`, yet the schedule is empty (0 entries, not 3), because
the source returns `[]` when the loan amount is zero. -/
theorem c8_counterexample :
    1 ≤ paramsC8x.loanTermYears ∧ 0 ≤ paramsC8x.downPaymentPercent ∧
    paramsC8x.downPaymentPercent ≤ 1 ∧ paramsC8x.loanTermYears = 3 ∧
    (calculateAmortizationSchedule paramsC8x).length = 0 := by
  norm_num [paramsC8x, calculateAmortizationSchedule]

/-- Witness for `c8_schedule_one_entry_per_year` at the spec's scenario. -/
theorem c8_witness :
    (calculateAmortizationSchedule scenarioParams).length =
      scenarioParams.loanTermYears.toNat ∧
    ∀ k, k < (calculateAmortizationSchedule scenarioParams).length →
      ((calculateAmortizationSchedule scenarioParams).getD k amortDefault).year = k + 1 :=
  c8_schedule_one_entry_per_year scenarioParams (by decide) (by norm_num [scenarioParams])

/-- Claim C9: with a zero interest rate the annual loan payment is the
straight-line `loanAmount / termYears` (the explicit zero-rate branch, no
division by zero), every amortization entry carries the same principal; and
for price 1,000,000, 10% down, 5 years, every entry's principal is 180,000. -/
theorem c9_zero_interest_straight_line :
    (∀ p : Params, p.interestRatePercent = 0 → 1 ≤ p.loanTermYears →
      calculateAnnualLoanPayment p (p.price * (1 - p.downPaymentPercent)) p.loanTermYears =
        p.price * (1 - p.downPaymentPercent) / (p.loanTermYears : ℚ) ∧
      ∀ e ∈ calculateAmortizationSchedule p, ∀ f ∈ calculateAmortizationSchedule p,
        e.principal = f.principal) ∧
    ∀ e ∈ calculateAmortizationSchedule paramsC9, e.principal = 180000 := by
  constructor
  · intro p hr hT
    have hr12 : p.interestRatePercent / 12 = 0 := by rw [hr]; norm_num
    constructor
    · simp only [calculateAnnualLoanPayment]
      rw [if_pos hr12]
    · by_cases hL0 : p.price * (1 - p.downPaymentPercent) = 0
      · intro e he
        have hnil : calculateAmortizationSchedule p = [] := by
          simp only [calculateAmortizationSchedule]
          rw [if_pos hL0]
        rw [hnil] at he
        simp at he
      · have hpay : calculateAnnualLoanPayment p (p.price * (1 - p.downPaymentPercent))
            p.loanTermYears =
            p.price * (1 - p.downPaymentPercent) / (p.loanTermYears : ℚ) := by
          simp only [calculateAnnualLoanPayment]
          rw [if_pos hr12]
        rw [calculateAmortizationSchedule_eq p hL0, hr12, hpay]
        rcases lt_trichotomy (p.price * (1 - p.downPaymentPercent)) 0 with hneg | hzero | hpos
        · have hb : ¬ (0 : ℚ) < p.price * (1 - p.downPaymentPercent) := by linarith
          intro e he f hf
          rw [(amortYears_nonpos _ _ _ hb _ _ e he).1,
            (amortYears_nonpos _ _ _ hb _ _ f hf).1]
        · exact absurd hzero hL0
        · have hTQ : ((p.loanTermYears.toNat : ℕ) : ℚ) = (p.loanTermYears : ℚ) := by
            exact_mod_cast Int.toNat_of_nonneg (show (0 : ℤ) ≤ p.loanTermYears by omega)
          have hTQpos : (0 : ℚ) < (p.loanTermYears : ℚ) := by
            exact_mod_cast show (0 : ℤ) < p.loanTermYears by omega
          have hM0 : 0 < p.price * (1 - p.downPaymentPercent) / (p.loanTermYears : ℚ) / 12 := by
            positivity
          set M := p.price * (1 - p.downPaymentPercent) / (p.loanTermYears : ℚ) / 12 with hMdef
          have hcast : ((12 * p.loanTermYears.toNat : ℕ) : ℚ) =
              12 * (p.loanTermYears : ℚ) := by
            push_cast [hTQ]
            ring
          have hstart : p.price * (1 - p.downPaymentPercent) =
              ((12 * p.loanTermYears.toNat : ℕ) : ℚ) * M := by
            rw [hcast, hMdef]
            field_simp
            ring
          rw [hstart]
          intro e he f hf
          rw [(amortYears_zero_rate M hM0 p.loanTermYears.toNat 1).1 e he,
            (amortYears_zero_rate M hM0 p.loanTermYears.toNat 1).1 f hf]
  · norm_num [paramsC9, calculateAmortizationSchedule, calculateAnnualLoanPayment,
      amortYears, monthLoop]

/-- Witness for the universally quantified part of
`c9_zero_interest_straight_line`, at the spec's zero-interest scenario:
payment is 900,000 / 5. -/
theorem c9_witness :
    calculateAnnualLoanPayment paramsC9
      (paramsC9.price * (1 - paramsC9.downPaymentPercent)) paramsC9.loanTermYears =
      paramsC9.price * (1 - paramsC9.downPaymentPercent) / (paramsC9.loanTermYears : ℚ) :=
  (c9_zero_interest_straight_line.1 paramsC9 rfl (by decide)).1

/-! ## Payback-period lemmas -/

lemma chained_getD (d : CashFlowYear) :
    ∀ (l : List CashFlowYear) (c : ℚ), Chained c l → ∀ j, j < l.length →
      (l.getD j d).cumulativeCashFlow =
        (if j = 0 then c else (l.getD (j - 1) d).cumulativeCashFlow) +
          (l.getD j d).netCashFlow := by
  intro l
  induction l with
  | nil => intro c hc j hj; simp at hj
  | cons cf rest ih =>
    intro c hc j hj
    simp only [Chained] at hc
    obtain ⟨hhd, htl⟩ := hc
    rw [hhd] at htl
    match j with
    | 0 => simpa using hhd
    | j + 1 =>
      have hrec := ih (c + cf.netCashFlow) htl j (by simpa using hj)
      match j with
      | 0 =>
        simpa [hhd] using hrec
      | j + 1 =>
        simpa using hrec

lemma paybackAux_none_iff (d : CashFlowYear) :
    ∀ (l : List CashFlowYear) (c : ℚ) (i : ℕ), 1 ≤ i → Chained c l →
      (paybackAux c i l = none ↔
        ∀ j, j < l.length → (l.getD j d).cumulativeCashFlow < 0) := by
  intro l
  induction l with
  | nil => intro c i hi hc; simp [paybackAux]
  | cons cf rest ih =>
    intro c i hi hc
    simp only [Chained] at hc
    obtain ⟨hhd, htl⟩ := hc
    rw [hhd] at htl
    simp only [paybackAux]
    by_cases hpos : 0 ≤ c + cf.netCashFlow
    · rw [if_pos ⟨hpos, by omega⟩]
      constructor
      · intro h; exact absurd h (by simp)
      · intro hall
        exfalso
        have h0 := hall 0 (by simp)
        simp only [List.getD_cons_zero] at h0
        rw [hhd] at h0
        linarith
    · rw [if_neg (by rintro ⟨h1, -⟩; exact hpos h1)]
      rw [ih (c + cf.netCashFlow) (i + 1) (by omega) htl]
      constructor
      · intro hrest j hj
        match j with
        | 0 =>
          simp only [List.getD_cons_zero]
          rw [hhd]
          linarith [not_le.mp hpos]
        | j + 1 =>
          simpa using hrest j (by simpa using hj)
      · intro hall j hj
        have := hall (j + 1) (by simp only [List.length_cons]; omega)
        simpa using this

lemma paybackAux_some (d : CashFlowYear) :
    ∀ (l : List CashFlowYear) (c : ℚ) (i : ℕ), 1 ≤ i → Chained c l →
      ∀ q, paybackAux c i l = some q →
      ∃ j, j < l.length ∧
        0 ≤ (l.getD j d).cumulativeCashFlow ∧
        (∀ k, k < j → (l.getD k d).cumulativeCashFlow < 0) ∧
        q = (i : ℚ) + (j : ℚ) - 1 +
          (-(if j = 0 then c else (l.getD (j - 1) d).cumulativeCashFlow)) /
            (l.getD j d).netCashFlow := by
  intro l
  induction l with
  | nil => intro c i hi hc q hq; simp [paybackAux] at hq
  | cons cf rest ih =>
    intro c i hi hc q hq
    simp only [Chained] at hc
    obtain ⟨hhd, htl⟩ := hc
    rw [hhd] at htl
    simp only [paybackAux] at hq
    by_cases hpos : 0 ≤ c + cf.netCashFlow
    · rw [if_pos ⟨hpos, by omega⟩] at hq
      have hqv := Option.some.inj hq
      refine ⟨0, by simp, ?_, by omega, ?_⟩
      · simp only [List.getD_cons_zero]
        rw [hhd]
        exact hpos
      · rw [← hqv]
        simp only [List.getD_cons_zero, Nat.cast_zero, eq_self_iff_true, if_true]
        ring
    · rw [if_neg (by rintro ⟨h1, -⟩; exact hpos h1)] at hq
      obtain ⟨j, hj, hge, hlt, hqe⟩ := ih (c + cf.netCashFlow) (i + 1) (by omega) htl q hq
      refine ⟨j + 1, by simp only [List.length_cons]; omega, by simpa using hge, ?_, ?_⟩
      · intro k hk
        match k with
        | 0 =>
          simp only [List.getD_cons_zero]
          rw [hhd]
          linarith [not_le.mp hpos]
        | k + 1 =>
          simpa using hlt k (by omega)
      · rw [hqe]
        match j with
        | 0 =>
          simp only [if_pos rfl, Nat.add_sub_cancel, List.getD_cons_succ,
            List.getD_cons_zero, Nat.cast_zero, Nat.cast_one, if_neg (by omega : ¬0 + 1 = 0)]
          rw [hhd]
          push_cast
          ring
        | j + 1 =>
          simp only [List.getD_cons_succ, Nat.add_sub_cancel,
            if_neg (by omega : ¬j + 1 = 0), if_neg (by omega : ¬j + 1 + 1 = 0)]
          push_cast
          ring

lemma calculatePaybackPeriod_cashFlows (p : Params) :
    calculatePaybackPeriod (calculateCashFlows p) =
      paybackAux (-(p.price * p.downPaymentPercent)) 1
        (opRange p (calculateAnnualLoanPayment p
            (p.price * (1 - p.downPaymentPercent)) p.loanTermYears)
          (analysisHorizon p).toNat (analysisHorizon p).toNat 1
          (-(p.price * p.downPaymentPercent))) := by
  simp only [calculatePaybackPeriod, calculateCashFlows, paybackAux]
  rw [if_neg]
  · rw [zero_add]
  · rintro ⟨-, h⟩
    exact absurd h (by omega)

/-- Claim C5 (amended: the sandwich
`cumulativeCashFlow[⌊p⌋] < 0 ≤ cumulativeCashFlow[⌈p⌉]` holds whenever the
payback value is not an integer; when the cumulative cash flow crosses
exactly zero, the interpolation fraction is 1, the returned value is the
integer crossing year itself, and the cumulative there is 0 — not `< 0` at
the floor, see the counterexample.  Scoped to maps with a positive initial
equity outflow `price × downPaymentPercent > 0`, which also keeps the
interpolation's division well defined).  The null case is exact: `none` is
returned iff the cumulative cash flow stays negative at every year
`1 .. horizon`.  When `some q` is returned, `q` is the first crossing year
minus one plus the interpolation fraction computed from the prior
cumulative balance and that year's net cash flow. -/
theorem c5_payback_crossing (p : Params) (hT : 1 ≤ p.loanTermYears)
    (hI : 0 < p.price * p.downPaymentPercent) :
    (calculatePaybackPeriod (calculateCashFlows p) = none ↔
      ∀ i, 1 ≤ i → i ≤ p.loanTermYears.toNat →
        ((calculateCashFlows p).getD i cfDefault).cumulativeCashFlow < 0) ∧
    ∀ q, calculatePaybackPeriod (calculateCashFlows p) = some q →
      ∃ i, 1 ≤ i ∧ i ≤ p.loanTermYears.toNat ∧
        0 ≤ ((calculateCashFlows p).getD i cfDefault).cumulativeCashFlow ∧
        (∀ k, 1 ≤ k → k < i →
          ((calculateCashFlows p).getD k cfDefault).cumulativeCashFlow < 0) ∧
        q = (i : ℚ) - 1 +
          (-((calculateCashFlows p).getD (i - 1) cfDefault).cumulativeCashFlow) /
            ((calculateCashFlows p).getD i cfDefault).netCashFlow ∧
        ((⌊q⌋ = (i : ℤ) - 1 ∧ ⌈q⌉ = (i : ℤ) ∧
          ((calculateCashFlows p).getD (i - 1) cfDefault).cumulativeCashFlow < 0 ∧
          0 ≤ ((calculateCashFlows p).getD i cfDefault).cumulativeCashFlow) ∨
         (⌊q⌋ = (i : ℤ) ∧ ⌈q⌉ = (i : ℤ) ∧
          ((calculateCashFlows p).getD i cfDefault).cumulativeCashFlow = 0)) := by
  have hh : analysisHorizon p = p.loanTermYears := by
    unfold analysisHorizon
    rw [if_neg (by omega)]
  have hhT : (analysisHorizon p).toNat = p.loanTermYears.toNat := by rw [hh]
  have hcfs : calculateCashFlows p =
      yearZero (p.price * p.downPaymentPercent) ::
      opRange p (calculateAnnualLoanPayment p (p.price * (1 - p.downPaymentPercent))
        p.loanTermYears) (analysisHorizon p).toNat (analysisHorizon p).toNat 1
        (-(p.price * p.downPaymentPercent)) := rfl
  have hbridge := calculatePaybackPeriod_cashFlows p
  set ops := opRange p (calculateAnnualLoanPayment p
      (p.price * (1 - p.downPaymentPercent)) p.loanTermYears)
    (analysisHorizon p).toNat (analysisHorizon p).toNat 1
    (-(p.price * p.downPaymentPercent)) with hops
  have hlen : ops.length = (analysisHorizon p).toNat := by
    rw [hops]
    exact opRange_length p _ _ _ _ _
  have hch : Chained (-(p.price * p.downPaymentPercent)) ops := by
    rw [hops]
    exact opRange_chained p _ _ _ _ _
  constructor
  · rw [hbridge, paybackAux_none_iff cfDefault ops _ 1 le_rfl hch]
    constructor
    · intro hall i h1 h2
      obtain ⟨j, rfl⟩ : ∃ j, i = j + 1 := ⟨i - 1, by omega⟩
      rw [hcfs, List.getD_cons_succ]
      exact hall j (by rw [hlen, hhT]; omega)
    · intro hall j hj
      have := hall (j + 1) (by omega) (by rw [hlen, hhT] at hj; omega)
      rw [hcfs, List.getD_cons_succ] at this
      exact this
  · intro q hq
    rw [hbridge] at hq
    obtain ⟨j, hjlen, hge, hlt, hqe⟩ :=
      paybackAux_some cfDefault ops _ 1 le_rfl hch q hq
    refine ⟨j + 1, by omega, by rw [hlen, hhT] at hjlen; omega, ?_, ?_, ?_, ?_⟩
    · rw [hcfs, List.getD_cons_succ]
      exact hge
    · intro k h1 h2
      obtain ⟨k', rfl⟩ : ∃ k', k = k' + 1 := ⟨k - 1, by omega⟩
      rw [hcfs, List.getD_cons_succ]
      exact hlt k' (by omega)
    · rw [hcfs, List.getD_cons_succ, Nat.add_sub_cancel]
      rw [hqe]
      have hprev : (if j = 0 then -(p.price * p.downPaymentPercent)
          else (ops.getD (j - 1) cfDefault).cumulativeCashFlow) =
          ((yearZero (p.price * p.downPaymentPercent) ::
            ops).getD j cfDefault).cumulativeCashFlow := by
        match j with
        | 0 => simp [yearZero]
        | j + 1 => simp
      rw [hprev]
      push_cast
      ring
    · have hchd := chained_getD cfDefault ops _ hch j hjlen
      have hprevneg : (if j = 0 then -(p.price * p.downPaymentPercent)
          else (ops.getD (j - 1) cfDefault).cumulativeCashFlow) < 0 := by
        by_cases hj0 : j = 0
        · rw [if_pos hj0]
          linarith
        · rw [if_neg hj0]
          exact hlt (j - 1) (by omega)
      have hnetpos : 0 < (ops.getD j cfDefault).netCashFlow := by linarith
      have hprevcfs : (if j = 0 then -(p.price * p.downPaymentPercent)
          else (ops.getD (j - 1) cfDefault).cumulativeCashFlow) =
          ((yearZero (p.price * p.downPaymentPercent) ::
            ops).getD j cfDefault).cumulativeCashFlow := by
        match j with
        | 0 => simp [yearZero]
        | j + 1 => simp
      have hq_eq : q = (j : ℚ) +
          (-(if j = 0 then -(p.price * p.downPaymentPercent)
            else (ops.getD (j - 1) cfDefault).cumulativeCashFlow)) /
            (ops.getD j cfDefault).netCashFlow := by
        rw [hqe]
        push_cast
        ring
      by_cases hzero : (ops.getD j cfDefault).cumulativeCashFlow = 0
      · right
        have hfrac : (-(if j = 0 then -(p.price * p.downPaymentPercent)
            else (ops.getD (j - 1) cfDefault).cumulativeCashFlow)) /
            (ops.getD j cfDefault).netCashFlow = 1 := by
          rw [show (-(if j = 0 then -(p.price * p.downPaymentPercent)
              else (ops.getD (j - 1) cfDefault).cumulativeCashFlow)) =
              (ops.getD j cfDefault).netCashFlow from by linarith]
          exact div_self (ne_of_gt hnetpos)
        have hqint : q = ((j + 1 : ℕ) : ℚ) := by
          rw [hq_eq, hfrac]
          push_cast
          ring
        refine ⟨?_, ?_, ?_⟩
        · rw [hqint, Int.floor_natCast]
        · rw [hqint, Int.ceil_natCast]
        · rw [hcfs, List.getD_cons_succ]
          exact hzero
      · left
        have hcumpos : 0 < (ops.getD j cfDefault).cumulativeCashFlow :=
          lt_of_le_of_ne hge (Ne.symm hzero)
        have hf0 : 0 < (-(if j = 0 then -(p.price * p.downPaymentPercent)
            else (ops.getD (j - 1) cfDefault).cumulativeCashFlow)) /
            (ops.getD j cfDefault).netCashFlow :=
          div_pos (by linarith) hnetpos
        have hf1 : (-(if j = 0 then -(p.price * p.downPaymentPercent)
            else (ops.getD (j - 1) cfDefault).cumulativeCashFlow)) /
            (ops.getD j cfDefault).netCashFlow < 1 :=
          (div_lt_one hnetpos).mpr (by linarith)
        refine ⟨?_, ?_, ?_, ?_⟩
        · rw [Int.floor_eq_iff]
          constructor
          · rw [hq_eq]
            push_cast
            linarith
          · rw [hq_eq]
            push_cast
            linarith
        · rw [Int.ceil_eq_iff]
          constructor
          · rw [hq_eq]
            push_cast
            linarith
          · rw [hq_eq]
            push_cast
            linarith
        · rw [hcfs, Nat.add_sub_cancel, ← hprevcfs]
          exact hprevneg
        · rw [hcfs, List.getD_cons_succ]
          exact hge

/-- Counterexample to C5 as stated: for `paramsC5x` (validated, positive
initial outflow) the cumulative cash flow is −50 at year 0 and exactly 0 at
year 1, the interpolation fraction is 1, the returned payback is the
integer 1, and `cumulativeCashFlow[⌊1⌋] = cumulativeCashFlow[1] = 0` is not
`< 0` as the claim requires. -/
theorem c5_counterexample :
    1 ≤ paramsC5x.loanTermYears ∧
    0 < paramsC5x.price * paramsC5x.downPaymentPercent ∧
    calculatePaybackPeriod (calculateCashFlows paramsC5x) = some 1 ∧
    ⌊(1 : ℚ)⌋ = 1 ∧
    ((calculateCashFlows paramsC5x).getD 1 cfDefault).cumulativeCashFlow = 0 := by
  refine ⟨by decide, by norm_num [paramsC5x], ?_, by norm_num, ?_⟩
  · norm_num [paramsC5x, calculatePaybackPeriod, calculateCashFlows,
      calculateAnnualLoanPayment, analysisHorizon, opRange, paybackAux]
  · norm_num [paramsC5x, calculateCashFlows, calculateAnnualLoanPayment,
      analysisHorizon, opRange]

/-- Witness for `c5_payback_crossing` at the spec's scenario (the
null-characterization component). -/
theorem c5_witness :
    calculatePaybackPeriod (calculateCashFlows scenarioParams) = none ↔
      ∀ i, 1 ≤ i → i ≤ scenarioParams.loanTermYears.toNat →
        ((calculateCashFlows scenarioParams).getD i cfDefault).cumulativeCashFlow < 0 :=
  (c5_payback_crossing scenarioParams (by decide) (by norm_num [scenarioParams])).1

/-- Claim C6 (amended: additionally the scrap value paid in the final year
must not offset the accumulated deficit —
`scrapValue < price × downPaymentPercent + loanTermYears × (debtPayment − EBITDA)`
— otherwise the terminal value alone can make the final cumulative
non-negative, see the counterexample): for every validated map whose EBITDA
is below the annual debt payment in every operating year, the payback
period is `null`. -/
theorem c6_negative_carry_payback_null (p : Params) (hT : 1 ≤ p.loanTermYears)
    (hI : 0 ≤ p.price * p.downPaymentPercent)
    (hE : p.dailyCharterRate * 365 * p.utilizationPercent - p.opexPerDay * 365 <
      calculateAnnualLoanPayment p (p.price * (1 - p.downPaymentPercent)) p.loanTermYears)
    (hscrap : p.scrapValue < p.price * p.downPaymentPercent +
      (p.loanTermYears : ℚ) *
        (calculateAnnualLoanPayment p (p.price * (1 - p.downPaymentPercent))
            p.loanTermYears -
          (p.dailyCharterRate * 365 * p.utilizationPercent - p.opexPerDay * 365))) :
    calculatePaybackPeriod (calculateCashFlows p) = none := by
  have hh : analysisHorizon p = p.loanTermYears := by
    unfold analysisHorizon
    rw [if_neg (by omega)]
  have hhT : (analysisHorizon p).toNat = p.loanTermYears.toNat := by rw [hh]
  have hTQ : ((p.loanTermYears.toNat : ℕ) : ℚ) = (p.loanTermYears : ℚ) := by
    exact_mod_cast Int.toNat_of_nonneg (show (0 : ℤ) ≤ p.loanTermYears by omega)
  rw [calculatePaybackPeriod_cashFlows p]
  set pay := calculateAnnualLoanPayment p (p.price * (1 - p.downPaymentPercent))
    p.loanTermYears with hpaydef
  rw [paybackAux_none_iff cfDefault _ _ 1 le_rfl
    (opRange_chained p pay (analysisHorizon p).toNat (analysisHorizon p).toNat 1 _)]
  intro j hj
  rw [opRange_length] at hj
  rw [opRange_cum_getD p pay (analysisHorizon p).toNat (analysisHorizon p).toNat 1
    (-(p.price * p.downPaymentPercent)) j hj]
  rw [hhT] at hj
  have hterm : ∀ m ∈ Finset.range (j + 1),
      netYear p pay (analysisHorizon p).toNat (1 + m) =
        ((p.dailyCharterRate * 365 * p.utilizationPercent - p.opexPerDay * 365) - pay) +
          (if m = p.loanTermYears.toNat - 1 then p.scrapValue else 0) := by
    intro m hm
    rw [Finset.mem_range] at hm
    simp only [netYear, hhT]
    rw [if_pos (show ((1 + m : ℕ) : ℤ) ≤ p.loanTermYears by push_cast; omega)]
    have hcond : (1 + m = p.loanTermYears.toNat) = (m = p.loanTermYears.toNat - 1) :=
      propext (by omega)
    simp only [hcond]
  have hsum : ∑ m ∈ Finset.range (j + 1), netYear p pay (analysisHorizon p).toNat (1 + m) =
      ((j + 1 : ℕ) : ℚ) *
        ((p.dailyCharterRate * 365 * p.utilizationPercent - p.opexPerDay * 365) - pay) +
      (if j + 1 = p.loanTermYears.toNat then p.scrapValue else 0) := by
    rw [Finset.sum_congr rfl hterm, Finset.sum_add_distrib, Finset.sum_const,
      Finset.sum_ite_eq', nsmul_eq_mul, Finset.card_range]
    simp only [Finset.mem_range]
    have hcond2 : (p.loanTermYears.toNat - 1 < j + 1) = (j + 1 = p.loanTermYears.toNat) :=
      propext (by omega)
    simp only [hcond2]
  rw [hsum]
  by_cases hfin : j + 1 = p.loanTermYears.toNat
  · rw [if_pos hfin]
    have hjq : ((j + 1 : ℕ) : ℚ) = (p.loanTermYears : ℚ) := by
      rw [hfin, hTQ]
    rw [hjq]
    nlinarith
  · rw [if_neg hfin]
    have h1 : (1 : ℚ) ≤ ((j + 1 : ℕ) : ℚ) := by
      exact_mod_cast Nat.succ_le_succ (Nat.zero_le j)
    have hneg : (p.dailyCharterRate * 365 * p.utilizationPercent - p.opexPerDay * 365) -
        pay < 0 := by linarith
    have hmul : ((j + 1 : ℕ) : ℚ) *
        ((p.dailyCharterRate * 365 * p.utilizationPercent - p.opexPerDay * 365) - pay) ≤
        1 * ((p.dailyCharterRate * 365 * p.utilizationPercent - p.opexPerDay * 365) - pay) :=
      mul_le_mul_of_nonpos_right h1 (le_of_lt hneg)
    linarith

/-- Counterexample to C6 as stated: `paramsC6x` has EBITDA −365 below the
annual debt payment 50 in its only operating year, yet the supplied scrap
value 1000 turns the final cumulative positive and the payback period is
10/117, not `null`. -/
theorem c6_counterexample :
    paramsC6x.dailyCharterRate * 365 * paramsC6x.utilizationPercent -
        paramsC6x.opexPerDay * 365 <
      calculateAnnualLoanPayment paramsC6x
        (paramsC6x.price * (1 - paramsC6x.downPaymentPercent)) paramsC6x.loanTermYears ∧
    calculatePaybackPeriod (calculateCashFlows paramsC6x) = some (10 / 117) := by
  constructor
  · norm_num [paramsC6x, calculateAnnualLoanPayment]
  · norm_num [paramsC6x, calculatePaybackPeriod, calculateCashFlows,
      calculateAnnualLoanPayment, analysisHorizon, opRange, paybackAux]

/-- Witness for `c6_negative_carry_payback_null`: same deficit pattern as the
counterexample but with scrap value 15 (below the accumulated deficit 465),
so the payback period is indeed `null`. -/
theorem c6_witness : calculatePaybackPeriod (calculateCashFlows paramsC6w) = none :=
  c6_negative_carry_payback_null paramsC6w (by decide)
    (by norm_num [paramsC6w])
    (by norm_num [paramsC6w, calculateAnnualLoanPayment])
    (by norm_num [paramsC6w, calculateAnnualLoanPayment])

/-- Claim C7 (amended: the normalizer applies the `price × 0.15` default not
only when `scrapValue` is absent but also when the supplied value is 0 — in
the source `parseFloat(params.scrapValue) || (params.price * 0.15)` treats a
supplied 0 as falsy, see the counterexample; a supplied nonzero value is
kept). -/
theorem c7_scrap_default (raw : RawParams) (p : Params) (pr : ℚ)
    (hpr : raw.price = some pr) (hok : validateParameters raw = Except.ok p) :
    (raw.scrapValue = none → p.scrapValue = pr * (15 / 100)) ∧
    (raw.scrapValue = some 0 → p.scrapValue = pr * (15 / 100)) ∧
    (∀ v, raw.scrapValue = some v → v ≠ 0 → p.scrapValue = v) := by
  rcases hdp : raw.downPaymentPercent with _ | dp
  · simp only [validateParameters, hpr, hdp] at hok
    exact absurd hok (by simp)
  rcases hlt : raw.loanTermYears with _ | lt
  · simp only [validateParameters, hpr, hdp, hlt] at hok
    exact absurd hok (by simp)
  rcases hir : raw.interestRatePercent with _ | ir
  · simp only [validateParameters, hpr, hdp, hlt, hir] at hok
    exact absurd hok (by simp)
  rcases hdc : raw.dailyCharterRate with _ | dc
  · simp only [validateParameters, hpr, hdp, hlt, hir, hdc] at hok
    exact absurd hok (by simp)
  rcases hop : raw.opexPerDay with _ | op
  · simp only [validateParameters, hpr, hdp, hlt, hir, hdc, hop] at hok
    exact absurd hok (by simp)
  rcases hu : raw.utilizationPercent with _ | u
  · simp only [validateParameters, hpr, hdp, hlt, hir, hdc, hop, hu] at hok
    exact absurd hok (by simp)
  simp only [validateParameters, hpr, hdp, hlt, hir, hdc, hop, hu,
    Except.ok.injEq] at hok
  refine ⟨?_, ?_, ?_⟩
  · intro hs
    rw [← hok]
    simp [hs]
  · intro hs
    rw [← hok]
    simp [hs]
  · intro v hs hv
    rw [← hok]
    simp [hs, hv]

/-- Counterexample to C7 as stated: `rawC7` supplies the numeric
`scrapValue = 0`, yet the normalized scrap value is `100 × 0.15 = 15`, not
the supplied 0. -/
theorem c7_counterexample :
    rawC7.scrapValue = some 0 ∧
    (validateParameters rawC7).toOption.map (fun q => q.scrapValue) = some 15 ∧
    (15 : ℚ) ≠ 0 := by
  refine ⟨rfl, ?_, by norm_num⟩
  norm_num [rawC7, validateParameters, Except.toOption]

/-- Witness for `c7_scrap_default`: a supplied nonzero scrap value (7) is
kept by the normalizer. -/
theorem c7_witness :
    ∃ p : Params, validateParameters rawC7b = Except.ok p ∧ p.scrapValue = 7 := by
  rcases hok : validateParameters rawC7b with e | p
  · simp [rawC7b, validateParameters] at hok
  · exact ⟨p, rfl, (c7_scrap_default rawC7b p 100 rfl hok).2.2 7 rfl (by norm_num)⟩

end VesselFinancialModel
